import Mathlib

/-!
Verification of the task lifecycle and merge-reconciliation engine of
`GlobalClaudeOrchestrator` (src/lib/orchestrator.ts).  The stateful
TypeScript methods are shallowly embedded as pure Lean functions over an
explicit state record; the outcomes of external `git`/filesystem commands
that can succeed or fail are supplied as an explicit oracle record, and
`process.chdir` failure (ENOENT on a directory removed during the
operation) is modelled by tracking which directory can disappear — the
only directory the operation itself removes is the task worktree.
Strings are manipulated with character-list versions of the JavaScript
string primitives used by the source (`startsWith`, `substring`,
`replace`, `endsWith`).
-/

/-! ### Character-level string primitives (JS semantics) -/

/-- Character-list version of JS `pat`-at-the-front test: `hasLead p l`
is true iff the list `l` begins with the pattern `p`. -/
def hasLead : List Char → List Char → Bool
  | [], _ => true
  | _ :: _, [] => false
  | a :: as, b :: bs => a == b && hasLead as bs

/-- JS `s.startsWith(pat)` over the character sequence of `s`. -/
def strLead (s pat : String) : Bool := hasLead pat.data s.data

/-- JS `s.substring(n)` (drop the first `n` characters). -/
def strDropChars (s : String) (n : Nat) : String := ⟨s.data.drop n⟩

/-- JS `s.substring(0, n)` (take the first `n` characters). -/
def strTake (s : String) (n : Nat) : String := ⟨s.data.take n⟩

/-- JS `s.endsWith(pat)` over the character sequence of `s`. -/
def strEndsWith (s pat : String) : Bool := pat.data.isSuffixOf s.data

/-- Replace the first occurrence of `pat` in a character list by nothing
(the source only ever replaces with the empty string). -/
def replaceFirstAux (pat : List Char) : List Char → List Char
  | [] => []
  | c :: rest =>
    if hasLead pat (c :: rest) then (c :: rest).drop pat.length
    else c :: replaceFirstAux pat rest

/-- JS `s.replace(pat, '')`: remove the first occurrence of `pat`. -/
def jsReplaceOnce (s pat : String) : String := ⟨replaceFirstAux pat.data s.data⟩

/-! ### Decimal representation of `Nat` and its injectivity

The spawn operation derives branch and worktree names from
`Date.now()` interpolated into a template literal, i.e. from the decimal
representation of the millisecond timestamp; `Nat.repr` models that
interpolation.  We prove `Nat.repr` injective so that distinct
timestamps give distinct derived names. -/

/-- Decimal digit list of a natural number (most significant first),
the mathematical description of what `Nat.toDigits 10` computes. -/
def natDigs (n : Nat) : List Char :=
  if n < 10 then [Nat.digitChar n]
  else natDigs (n / 10) ++ [Nat.digitChar (n % 10)]
termination_by n
decreasing_by exact Nat.div_lt_self (by omega) (by omega)

/-- Inverse of `Nat.digitChar` on decimal digits. -/
def charVal (c : Char) : Nat :=
  if c = '0' then 0 else if c = '1' then 1 else if c = '2' then 2
  else if c = '3' then 3 else if c = '4' then 4 else if c = '5' then 5
  else if c = '6' then 6 else if c = '7' then 7 else if c = '8' then 8
  else if c = '9' then 9 else 10

/-- Numeric value of a decimal digit-character list. -/
def digsVal (l : List Char) : Nat := l.foldl (fun a c => a * 10 + charVal c) 0

/-! ### Data model

`Status` covers the status strings the orchestrator actually writes
(`'active'`, `'completed'`, `'merged'`); `TaskRow` carries the fields of
a `tasks` row that the verified operations read. -/

inductive Status where
  | active
  | completed
  | merged
deriving DecidableEq, Repr, Fintype

structure TaskRow where
  id : String
  taskName : String
  projectPath : String
  worktreePath : String
  branch : String
  baseBranch : String
deriving DecidableEq, Repr

/-- Git and filesystem state threaded through `mergeTask`
(src/lib/orchestrator.ts lines 733-1020).  Commits are abstract `Nat`
identifiers; `baseTip` is the commit at `refs/heads/<baseBranch>` and
`taskTip` the commit at the task branch.  `wtFiles` maps a path relative
to the task worktree to its content (the files the merge path touches:
the three local-only settings files and the root `TASK.md`); these files
are untracked (they are listed in the worktree's git exclude file at
spawn time), so branch operations do not move them.  `locFiles` maps
(checkout location, relative path) to content for every checkout of the
project.  `bindings` lists the project's working-directory bindings
(worktree path, checked-out branch; `none` = detached), the data that
`git worktree list --porcelain` and `git branch --show-current` report. -/
structure MergeState where
  cwd : String
  status : Status
  baseTip : Nat
  taskTip : Nat
  worktreeExists : Bool
  dirty : Bool
  wtFiles : String → Option String
  locFiles : String × String → Option String
  bindings : List (String × Option String)

/-- Outcomes of the external commands `mergeTask` runs, in program
order: the auto-commit (producing commit `freshTip` on success), the
fetch/update-ref block (`some tip` when the base reference was updated
from the remote by either of its two internal strategies, `none` when
every fetch path failed and the local reference is kept), the rebase
(producing `rebasedTip`), `git worktree list`, the fast-forward
(`reset --hard` or `branch -f`), and `git worktree remove`. -/
structure MergeOracle where
  commitOk : Bool
  freshTip : Nat
  fetched : Option Nat
  rebaseOk : Bool
  rebasedTip : Nat
  worktreeListOk : Bool
  ffOk : Bool
  worktreeRemoveOk : Bool
deriving DecidableEq, Repr

/-- Result of `mergeTask`: the returned boolean, the final state, the
error lines printed on the failing path, and a trace of the integration
step: which location the fast-forward used and whether it took the
hard-reset path (`some true`) or the `branch -f` path (`some false`). -/
structure MergeResult where
  ok : Bool
  st : MergeState
  msgs : List String
  usedLocation : Option String
  usedReset : Option Bool

/-- The local-only configuration files quarantined by `mergeTask`
(lines 752-756). -/
def filesToPreserve : List String :=
  ["settings.local.json", ".claude/settings.local.json", ".vscode/settings.json"]

/-- Pointwise update of a file map. -/
def setFile (m : String × String → Option String) (k : String × String)
    (v : Option String) : String × String → Option String :=
  fun k2 => if k2 = k then v else m k2

/-- Pointwise update of the worktree file map. -/
def setWt (m : String → Option String) (k : String) (v : Option String) :
    String → Option String :=
  fun k2 => if k2 = k then v else m k2

/-- The restore loop of lines 930-955: for each backup, write the backed
up worktree content at the base-branch location, and when the file was
absent from the worktree, delete it at the base-branch location
(deleting an absent file leaves the map unchanged, so both branches are
`setFile`). -/
def restoreBackups (m : String × String → Option String) (loc : String)
    (bs : List (String × Option String)) : String × String → Option String :=
  bs.foldl (fun acc fc => setFile acc (loc, fc.1) fc.2) m

/-- Output of `git worktree list --porcelain` for the given bindings:
one `worktree <path>` line per binding followed by its
`branch refs/heads/<name>` (or `detached`) line.  The `HEAD <sha>` and
blank separator lines of the real output are omitted: the parser skips
every line that starts with neither `worktree ` nor `branch `. -/
def worktreeListLines : List (String × Option String) → List String
  | [] => []
  | (p, some br) :: rest =>
    ("worktree " ++ p) :: ("branch refs/heads/" ++ br) :: worktreeListLines rest
  | (p, none) :: rest =>
    ("worktree " ++ p) :: "detached" :: worktreeListLines rest

/-- The parsing loop of lines 873-886: track the current `worktree `
path, and on the first `branch ` line whose reference (with the first
`refs/heads/` removed) equals the base branch, return the tracked path. -/
def findBaseLocAux (base : String) : List String → String → Option String
  | [], _ => none
  | line :: rest, cur =>
    if strLead line ("worktree ") then
      findBaseLocAux base rest (strDropChars line 9)
    else if strLead line ("branch ") then
      if jsReplaceOnce (strDropChars line 7) ("refs/heads/") = base then some cur
      else findBaseLocAux base rest cur
    else findBaseLocAux base rest cur

/-- Lines 863-891: locate the checkout of the base branch, defaulting to
the main project path both when `git worktree list` itself fails and
when no binding has the base branch checked out. -/
def mergeLocation (t : TaskRow) (bindings : List (String × Option String))
    (o : MergeOracle) : String :=
  if o.worktreeListOk then
    (findBaseLocAux t.baseBranch (worktreeListLines bindings) "").getD t.projectPath
  else t.projectPath

/-- Lines 897-905: `git -C <loc> branch --show-current`, reported from
the binding at that location (`none` when the location is not a known
checkout, matching the caught command failure). -/
def showCurrent (bindings : List (String × Option String)) (loc : String) :
    Option String :=
  match bindings.find? (fun pb => pb.1 == loc) with
  | some pb => pb.2
  | none => none

/-- Error lines printed when the rebase fails (lines 848-855). -/
def rebaseFailMsgs (t : TaskRow) : List String :=
  ["\n❌ Rebase failed!",
   "   There may be conflicts that need to be resolved.",
   "\n💡 To resolve:",
   "   1. cd " ++ t.worktreePath,
   "   2. Resolve conflicts in the files",
   "   3. git add <resolved-files>",
   "   4. git rebase --continue",
   "   5. Try merging again with: co merge " ++ strTake t.id 8]

/-- The private `mergeTask` method (lines 733-1020), the integrate
operation.  Every external command failure the source catches jumps to
the catch-all handler of lines 980-1019, which retries
`process.chdir(originalCwd)` inside its own try/catch and returns
`false`; an unguarded `process.chdir(originalCwd)` throws exactly when
the original directory was the task worktree and the worktree no longer
exists (the only directory this operation removes). -/
def mergeTask (t : TaskRow) (s0 : MergeState) (o : MergeOracle) : MergeResult :=
  let originalCwd := s0.cwd
  -- line 738: process.chdir(task.projectPath)
  let s1 : MergeState := { s0 with cwd := t.projectPath }
  -- lines 741-746: preflight, the worktree must still exist
  if s1.worktreeExists then
    -- lines 749-775: back up the quarantined files from the task worktree
    let backups := filesToPreserve.map (fun f => (f, s1.wtFiles f))
    -- lines 778-786: remove a stray root TASK.md from the worktree
    let s2 : MergeState := { s1 with wtFiles := setWt s1.wtFiles ("TASK.md") none }
    -- lines 789-801: auto-commit uncommitted changes; failure aborts
    if s2.dirty && !o.commitOk then
      { ok := false, st := { s2 with cwd := originalCwd },
        msgs := ["❌ Failed to commit changes. Please commit manually."],
        usedLocation := none, usedReset := none }
    else
      let s3 : MergeState :=
        if s2.dirty then { s2 with dirty := false, taskTip := o.freshTip } else s2
      -- lines 807-839: fetch and update the local base-branch reference;
      -- every failure is handled internally and integration continues
      let s4 : MergeState :=
        match o.fetched with
        | some tip => { s3 with baseTip := tip }
        | none => s3
      -- lines 842-858: rebase the task branch onto the base branch
      if !o.rebaseOk then
        { ok := false, st := { s4 with cwd := originalCwd },
          msgs := rebaseFailMsgs t, usedLocation := none, usedReset := none }
      else
        let s5 : MergeState := { s4 with taskTip := o.rebasedTip }
        -- lines 863-891: locate the base-branch checkout
        let loc := mergeLocation t s5.bindings o
        -- lines 897-905: is the base branch checked out there?
        let isCheckedOut := showCurrent s5.bindings loc == some t.baseBranch
        -- line 911: chdir into the checkout before the hard reset
        let s6 : MergeState := if isCheckedOut then { s5 with cwd := loc } else s5
        -- lines 907-926: fast-forward (reset --hard or branch -f)
        if !o.ffOk then
          { ok := false, st := { s6 with cwd := originalCwd },
            msgs := ["\n❌ Fast-forward failed!"],
            usedLocation := some loc, usedReset := some isCheckedOut }
        else
          let s7 : MergeState := { s6 with baseTip := s6.taskTip }
          -- lines 929-955: restore the quarantined files at the base-branch location
          let s8 : MergeState :=
            { s7 with locFiles := restoreBackups s7.locFiles loc backups }
          -- lines 958-963: return to the main repository
          let s9 : MergeState := { s8 with cwd := t.projectPath }
          -- line 965: git worktree remove; a failure throws to the catch-all,
          -- where the guarded chdir succeeds because the worktree still exists
          if !o.worktreeRemoveOk then
            { ok := false, st := { s9 with cwd := originalCwd },
              msgs := ["\n❌ Merge failed!"],
              usedLocation := some loc, usedReset := some isCheckedOut }
          else
            let s10 : MergeState :=
              { s9 with worktreeExists := false,
                        bindings := s9.bindings.filter (fun pb => pb.1 != t.worktreePath) }
            -- lines 968-972: UPDATE tasks SET status = merged
            let s11 : MergeState := { s10 with status := Status.merged }
            -- line 976: process.chdir(originalCwd); throws when the original
            -- directory was the just-removed worktree, and then the catch-all
            -- retry fails for the same reason
            if originalCwd = t.worktreePath then
              { ok := false, st := s11, msgs := ["\n❌ Merge failed!"],
                usedLocation := some loc, usedReset := some isCheckedOut }
            else
              { ok := true, st := { s11 with cwd := originalCwd }, msgs := [],
                usedLocation := some loc, usedReset := some isCheckedOut }
  else
    -- lines 741-746: worktree missing; the unguarded chdir back throws into
    -- the catch-all when the original directory was the missing worktree
    if originalCwd = t.worktreePath then
      { ok := false, st := s1, msgs := ["\n❌ Worktree not found: " ++ t.worktreePath],
        usedLocation := none, usedReset := none }
    else
      { ok := false, st := { s1 with cwd := originalCwd },
        msgs := ["\n❌ Worktree not found: " ++ t.worktreePath],
        usedLocation := none, usedReset := none }

/-! ### The check operation (`checkProjectTasks`, lines 670-731) -/

/-- One enumerated task row as `checkProjectTasks` sees it: the
directory listing of `<worktree>/.claude-o` (`none` when the directory
does not exist), the legacy top-level `.task_complete` marker, and the
task's row fields, git/filesystem state and external-command outcomes,
so that the loop can run the real `mergeTask` on it.  The row's stored
status is `st.status`.  Each enumerated task has its own worktree,
branch and state; the model gives each row an independent `MergeState`. -/
structure CheckRow where
  claudeOEntries : Option (List String)
  legacyMarker : Bool
  task : TaskRow
  st : MergeState
  oracle : MergeOracle

/-- The completion check of lines 699-714: true iff some entry of the
`.claude-o` directory listing ends in `.task_complete`, or — for
backwards compatibility — the legacy top-level `.task_complete` exists.
A flat `readdirSync` listing, not a recursive scan, and a pure read. -/
def isComplete (r : CheckRow) : Bool :=
  (match r.claudeOEntries with
   | some files => files.any (fun f => strEndsWith f (".task_complete"))
   | none => false) || r.legacyMarker

/-- The `forEach` body of lines 699-728 over the enumerated active rows:
count each complete task, and when auto-merge is enabled invoke
`mergeTask` on it — the row ends in whatever state `mergeTask` leaves
(its returned boolean and the row's stored status are distinct
observables: the one failure path of `mergeTask` that only fails to
restore the working directory leaves the row `merged` yet returns
`false`), and the merged counter is incremented exactly when `mergeTask`
returns `true`; when auto-merge is disabled only a console hint is
printed and the row is not written. -/
def checkLoop (autoMerge : Bool) : List CheckRow → Nat × Nat × List CheckRow
  | [] => (0, 0, [])
  | r :: rest =>
    if isComplete r then
      if autoMerge then
        let m := mergeTask r.task r.st r.oracle
        let res := checkLoop autoMerge rest
        (res.1 + 1, res.2.1 + (if m.ok then 1 else 0), { r with st := m.st } :: res.2.2)
      else
        let res := checkLoop autoMerge rest
        (res.1 + 1, res.2.1, r :: res.2.2)
    else
      let res := checkLoop autoMerge rest
      (res.1, res.2.1, r :: res.2.2)

/-- `checkProjectTasks` (lines 670-731): enumerate the project's rows
with `status = 'active'`, run the completion check on each, and return
`(checked, completed, merged)` together with the final states of the
enumerated rows. -/
def checkProjectTasks (autoMerge : Bool) (rows : List CheckRow) :
    (Nat × Nat × Nat) × List CheckRow :=
  let act := rows.filter (fun r => r.st.status == Status.active)
  let res := checkLoop autoMerge act
  ((act.length, res.1, res.2.1), res.2.2)

/-! ### The kill operation (`killTask`, lines 1208-1347) -/

structure KillState where
  cwd : String
  worktreeExists : Bool
  branchExists : Bool
  rowExists : Bool
  taskCount : Int
deriving DecidableEq, Repr

/-- Outcomes of the external commands `killTask` may run: the two
worktree-removal commands (`git worktree remove --force` and the
`rm -rf` + `git worktree prune` fallback) and the `git branch -D`
deletion, which can fail — for instance when the branch is absent, or
when the worktree directory was deleted by hand but its metadata was
never pruned and git still records the branch as checked out there. -/
structure KillOracle where
  worktreeRemoveOk : Bool
  manualCleanupOk : Bool
  branchDeleteOk : Bool
deriving DecidableEq, Repr

structure KillResult where
  ok : Bool
  st : KillState
  triedWorktreeRemoval : Bool
  triedBranchDelete : Bool
deriving Repr

/-- `killTask` after the row lookup (lines 1278-1347): remove the
worktree only when its directory still exists (tolerating failure of
both removal commands), force-delete the branch tolerating its absence,
delete the task row, and decrement the owning project's task count. -/
def killTask (t : TaskRow) (s0 : KillState) (o : KillOracle) : KillResult :=
  let originalCwd := s0.cwd
  -- lines 1296-1317: worktree removal, only when the directory exists
  let step1 : KillState × Bool :=
    if s0.worktreeExists then
      let s : KillState := { s0 with cwd := t.projectPath }
      if o.worktreeRemoveOk then ({ s with worktreeExists := false }, true)
      else if o.manualCleanupOk then ({ s with worktreeExists := false }, true)
      else (s, true)
    else (s0, false)
  -- lines 1320-1326: chdir to the project and force-delete the branch;
  -- a failing command (missing branch, or branch still recorded as
  -- checked out in stale worktree metadata) is caught and logged, and
  -- then the branch survives
  let s2 : KillState :=
    { step1.1 with cwd := t.projectPath,
                   branchExists := if o.branchDeleteOk then false
                                   else step1.1.branchExists }
  -- line 1329: DELETE FROM tasks; lines 1332-1336: task_count - 1
  let s3 : KillState :=
    { s2 with rowExists := false, taskCount := s2.taskCount - 1 }
  -- line 1340: process.chdir(originalCwd)
  { ok := true, st := { s3 with cwd := originalCwd },
    triedWorktreeRemoval := step1.2, triedBranchDelete := true }

/-! ### Spawn-time name derivation (`spawnTask`, lines 187-274) -/

/-- Line 203: the task branch name derived from the slug and the
`Date.now()` millisecond reading. -/
def spawnBranchName (taskName : String) (timestamp : Nat) : String :=
  "fix/" ++ taskName ++ "-" ++ Nat.repr timestamp

/-- Lines 198-202: the worktree path derived from the worktrees base
directory, the project name, the slug and the `Date.now()` reading. -/
def spawnWorktreePath (worktreesBaseDir projectName taskName : String)
    (timestamp : Nat) : String :=
  worktreesBaseDir ++ "/" ++ projectName ++ "/" ++ (taskName ++ "-" ++ Nat.repr timestamp)

/-- Lines 212-224: `git worktree add -b <branch>` fails when the branch
already exists, the error is rethrown and no task row is recorded;
otherwise the new branch is created. -/
def spawnAttempt (taskName : String) (timestamp : Nat) (branches : List String) :
    Option (String × List String) :=
  let b := spawnBranchName taskName timestamp
  if b ∈ branches then none else some (b, b :: branches)

/-! ### Lifecycle transitions over one task row (C5)

Each lifecycle operation's effect on the stored status of one row
(`none` = the row is absent or deleted), derived from its SQL `WHERE`
clause and its `UPDATE`/`DELETE`/`INSERT` statement. -/

/-- `spawnTask` (line 241-252): INSERT a new row with status `active`. -/
def spawnEffect : Option Status → Option Status
  | none => some Status.active
  | some s => some s

/-- `closeTask` (lines 1103-1206): the lookup matches only
`status = 'active'` rows and sets `completed`. -/
def closeEffect : Option Status → Option Status
  | some Status.active => some Status.completed
  | s => s

/-- `mergeTask` reached through `checkProjectTasks` (active rows only)
or `manualMerge` (lines 1022-1101, `status IN ('active', 'completed')`):
sets `merged` exactly when the integration succeeds. -/
def mergeEffect (success : Bool) : Option Status → Option Status
  | some Status.active => if success then some Status.merged else some Status.active
  | some Status.completed => if success then some Status.merged else some Status.completed
  | s => s

/-- `killTask` (lines 1208-1347): the lookup matches only
`status = 'active'` rows and deletes the row. -/
def killEffect : Option Status → Option Status
  | some Status.active => none
  | s => s

/-- `nukeAllTasks` (lines 1349-1461): selects every row of the project
regardless of status and deletes it. -/
def nukeEffect : Option Status → Option Status
  | some _ => none
  | none => none

/-- One observable transition of a row's stored status under the
lifecycle operations (spawn, check, close, merge, kill, nuke). -/
def LifeStep (s s2 : Option Status) : Prop :=
  s2 = spawnEffect s ∨ s2 = closeEffect s ∨ (∃ b, s2 = mergeEffect b s) ∨
    s2 = killEffect s ∨ s2 = nukeEffect s

/-- Position of a status in the chain `active → completed → merged`. -/
def statusRank : Status → Nat
  | Status.active => 0
  | Status.completed => 1
  | Status.merged => 2

instance (s s2 : Option Status) : Decidable (LifeStep s s2) := by
  unfold LifeStep
  infer_instance

/-! ### Concrete example inputs used by counterexamples and witnesses -/

def exTask : TaskRow :=
  { id := "0123456789abcdef", taskName := "fix-ui", projectPath := "/proj",
    worktreePath := "/w/fix-ui-1", branch := "fix/fix-ui-1", baseBranch := "master" }

def emptyWt : String → Option String := fun _ => none

def emptyLoc : String × String → Option String := fun _ => none

/-- Every external command succeeds. -/
def fullOracle : MergeOracle :=
  { commitOk := true, freshTip := 21, fetched := none, rebaseOk := true,
    rebasedTip := 30, worktreeListOk := true, ffOk := true, worktreeRemoveOk := true }

/-- The fetch updates the base reference, then the rebase hits a
conflict. -/
def conflictOracle : MergeOracle :=
  { commitOk := true, freshTip := 21, fetched := some 15, rebaseOk := false,
    rebasedTip := 0, worktreeListOk := true, ffOk := true, worktreeRemoveOk := true }

/-- A dirty worktree with a stray root `TASK.md`, about to hit a rebase
conflict. -/
def c1State : MergeState :=
  { cwd := "/home", status := Status.active, baseTip := 10, taskTip := 20,
    worktreeExists := true, dirty := true,
    wtFiles := fun f => if f = "TASK.md" then some "task instructions" else none,
    locFiles := emptyLoc, bindings := [("/proj", some "master")] }

/-- The task worktree holds a local settings file whose content differs
from the copy at the base-branch checkout. -/
def c2State : MergeState :=
  { cwd := "/home", status := Status.active, baseTip := 10, taskTip := 20,
    worktreeExists := true, dirty := false,
    wtFiles := fun f => if f = "settings.local.json" then some "task-settings" else none,
    locFiles := fun k => if k = ("/proj", "settings.local.json") then some "base-settings" else none,
    bindings := [("/proj", some "master"), ("/w/fix-ui-1", some "fix/fix-ui-1")] }

/-- The base branch is checked out at a secondary location, not at the
main project path. -/
def c6State : MergeState :=
  { cwd := "/home", status := Status.active, baseTip := 10, taskTip := 20,
    worktreeExists := true, dirty := false, wtFiles := emptyWt, locFiles := emptyLoc,
    bindings := [("/proj", some "dev"), ("/w/fix-ui-1", some "fix/fix-ui-1"),
                 ("/second", some "master")] }

/-- The operation is entered from inside the task worktree. -/
def c10State : MergeState :=
  { cwd := "/w/fix-ui-1", status := Status.active, baseTip := 10, taskTip := 20,
    worktreeExists := true, dirty := false, wtFiles := emptyWt, locFiles := emptyLoc,
    bindings := [("/proj", some "master"), ("/w/fix-ui-1", some "fix/fix-ui-1")] }

/-- An active row whose `.claude-o` listing contains a completion
marker. -/
def c3Row : CheckRow :=
  { claudeOEntries := some ["2025_fix-ui-01234567.task_complete"],
    legacyMarker := false, task := exTask, st := c1State, oracle := fullOracle }

/-- A kill on a task whose worktree directory is already gone and whose
branch is also already deleted. -/
def c9State : KillState :=
  { cwd := "/home", worktreeExists := false, branchExists := false,
    rowExists := true, taskCount := 3 }

/-- Specification-side description of step 6 (locate the base-branch
checkout): the first binding that has the base branch checked out, else
the main project path. -/
def expectedBaseLocation (t : TaskRow) (bindings : List (String × Option String)) :
    String :=
  ((bindings.find? (fun pb => pb.2 == some t.baseBranch)).map (fun pb => pb.1)).getD
    t.projectPath

/-! ### Proofs -/

theorem charVal_digitChar (d : Nat) (h : d < 10) :
    charVal (Nat.digitChar d) = d := by
  interval_cases d <;> rfl

theorem digsVal_append_single (xs : List Char) (c : Char) :
    digsVal (xs ++ [c]) = digsVal xs * 10 + charVal c := by
  simp [digsVal]

theorem digsVal_natDigs (n : Nat) : digsVal (natDigs n) = n := by
  induction n using Nat.strong_induction_on with
  | _ n ih =>
    by_cases h : n < 10
    · rw [natDigs]
      simp [h, digsVal, charVal_digitChar n h]
    · rw [natDigs]
      simp only [h, if_false]
      rw [digsVal_append_single,
        ih (n / 10) (Nat.div_lt_self (by omega) (by omega)),
        charVal_digitChar _ (Nat.mod_lt _ (by omega))]
      omega

theorem toDigitsCore_eq_natDigs (fuel : Nat) :
    ∀ (n : Nat) (ds : List Char), n < fuel →
      Nat.toDigitsCore 10 fuel n ds = natDigs n ++ ds := by
  induction fuel with
  | zero => intro n ds h; omega
  | succ f ih =>
    intro n ds _
    by_cases h10 : n / 10 = 0
    · have hn : n < 10 := (Nat.div_eq_zero_iff (by omega)).mp h10
      simp only [Nat.toDigitsCore, h10, if_true]
      rw [natDigs]
      simp [hn, Nat.mod_eq_of_lt hn]
    · have hn : ¬ n < 10 := by
        intro hlt
        exact h10 ((Nat.div_eq_zero_iff (by omega)).mpr hlt)
      simp only [Nat.toDigitsCore, h10, if_false]
      rw [ih (n / 10) _ (by
        have h1 : n / 10 < n := Nat.div_lt_self (by omega) (by omega)
        omega)]
      conv_rhs => rw [natDigs]
      simp [hn, List.append_assoc]

theorem natRepr_eq_natDigs (n : Nat) : Nat.repr n = ⟨natDigs n⟩ := by
  have h := toDigitsCore_eq_natDigs (n + 1) n [] (by omega)
  simp only [Nat.repr, Nat.toDigits, List.asString, h, List.append_nil]

theorem natRepr_injective (a b : Nat) (h : Nat.repr a = Nat.repr b) : a = b := by
  rw [natRepr_eq_natDigs, natRepr_eq_natDigs] at h
  have hd : natDigs a = natDigs b := congrArg String.data h
  calc a = digsVal (natDigs a) := (digsVal_natDigs a).symm
    _ = digsVal (natDigs b) := by rw [hd]
    _ = b := digsVal_natDigs b


theorem findBaseLocAux_worktree (base p cur : String) (rest : List String) :
    findBaseLocAux base (("worktree " ++ p) :: rest) cur =
      findBaseLocAux base rest p := rfl

theorem findBaseLocAux_detached (base cur : String) (rest : List String) :
    findBaseLocAux base ("detached" :: rest) cur =
      findBaseLocAux base rest cur := rfl

theorem findBaseLocAux_branch (base br cur : String) (rest : List String) :
    findBaseLocAux base (("branch refs/heads/" ++ br) :: rest) cur =
      if br = base then some cur else findBaseLocAux base rest cur := rfl

theorem findBaseLocAux_lines (base : String) (bs : List (String × Option String)) :
    ∀ cur, findBaseLocAux base (worktreeListLines bs) cur =
      (bs.find? (fun pb => pb.2 == some base)).map (fun pb => pb.1) := by
  induction bs with
  | nil => intro cur; rfl
  | cons hd tl ih =>
    intro cur
    obtain ⟨p, b⟩ := hd
    cases b with
    | none =>
      simp only [worktreeListLines]
      rw [findBaseLocAux_worktree, findBaseLocAux_detached, ih]
      rw [List.find?_cons_of_neg _ (by simp)]
    | some br =>
      simp only [worktreeListLines]
      rw [findBaseLocAux_worktree, findBaseLocAux_branch]
      by_cases hb : br = base
      · subst hb
        rw [if_pos rfl, List.find?_cons_of_pos _ (by simp)]
        rfl
      · rw [if_neg hb, ih, List.find?_cons_of_neg _ (by simp [hb])]

theorem mergeLocation_eq_expected (t : TaskRow)
    (bindings : List (String × Option String)) (o : MergeOracle)
    (h : o.worktreeListOk = true) :
    mergeLocation t bindings o = expectedBaseLocation t bindings := by
  simp [mergeLocation, h, expectedBaseLocation, findBaseLocAux_lines]

/-! ### Claim C8 -/

/-- C8: the completion check for a workspace returns true if and only if
the listing of the workspace's `.claude-o` directory has an entry ending
in `.task_complete`, or — for backward compatibility — the legacy
top-level `.task_complete` marker exists.  The check is a pure function
of the flat directory listing (no recursion, no side effects). -/
theorem isComplete_iff (r : CheckRow) :
    isComplete r = true ↔
      ((∃ fs, r.claudeOEntries = some fs ∧
          ∃ f ∈ fs, strEndsWith f (".task_complete") = true) ∨
        r.legacyMarker = true) := by
  cases h : r.claudeOEntries with
  | none => simp [isComplete, h]
  | some fs => simp [isComplete, h, List.any_eq_true]

/-! ### Claim C9 -/

/-- C9: killing an active task whose worktree directory no longer exists
succeeds rather than failing: the workspace-removal step is skipped, the
branch deletion is still attempted with its failure tolerated — the
conclusion holds for every oracle and every `branchExists` value, and
the deletion command may indeed fail here (the branch can still be
recorded as checked out in the unpruned worktree metadata), in which
case the branch survives — the task row is deleted, and the owning
project's task count is decremented. -/
theorem killTask_missing_worktree (t : TaskRow) (s : KillState) (o : KillOracle)
    (h : s.worktreeExists = false) :
    (killTask t s o).ok = true ∧
    (killTask t s o).triedWorktreeRemoval = false ∧
    (killTask t s o).triedBranchDelete = true ∧
    (killTask t s o).st.worktreeExists = false ∧
    (killTask t s o).st.rowExists = false ∧
    (killTask t s o).st.taskCount = s.taskCount - 1 ∧
    (killTask t s o).st.cwd = s.cwd := by
  simp [killTask, h]

/-- Witness for C9 at a concrete task whose worktree directory is gone,
with every external command — both removal commands and the branch
deletion — reported as failing; the kill still succeeds. -/
theorem killTask_missing_worktree_witness :
    (killTask exTask c9State ⟨false, false, false⟩).ok = true ∧
    (killTask exTask c9State ⟨false, false, false⟩).triedWorktreeRemoval = false ∧
    (killTask exTask c9State ⟨false, false, false⟩).triedBranchDelete = true ∧
    (killTask exTask c9State ⟨false, false, false⟩).st.worktreeExists = false ∧
    (killTask exTask c9State ⟨false, false, false⟩).st.rowExists = false ∧
    (killTask exTask c9State ⟨false, false, false⟩).st.taskCount = c9State.taskCount - 1 ∧
    (killTask exTask c9State ⟨false, false, false⟩).st.cwd = c9State.cwd :=
  killTask_missing_worktree exTask c9State ⟨false, false, false⟩ rfl

/-! ### Claim C5 -/

/-- C5 counterexample: `nukeAllTasks` selects every row of the project
regardless of status and deletes it, so a `merged` row can be deleted —
row deletion is not only possible from `active`, contradicting the claim
that the sequence ends with deletion from `active`. -/
theorem nuke_deletes_merged_row :
    LifeStep (some Status.merged) none ∧ Status.merged ≠ Status.active := by
  exact ⟨Or.inr (Or.inr (Or.inr (Or.inr rfl))), by decide⟩

/-- C5 (amended): under every lifecycle operation a stored status only
moves forward along `active → completed → merged`; once `merged` no
operation changes the status to a different status value; and the kill
operation deletes only `active` rows — but `nuke` deletes rows of any
status, so row deletion is not restricted to `active`. -/
theorem lifecycle_monotone :
    (∀ a b : Status, LifeStep (some a) (some b) → statusRank a ≤ statusRank b) ∧
    (∀ b : Status, LifeStep (some Status.merged) (some b) → b = Status.merged) ∧
    (∀ a : Status, killEffect (some a) = none → a = Status.active) := by
  refine ⟨?_, ?_, ?_⟩ <;> decide

/-- Witness for C5 applying the amended theorem to the step
`active → merged` produced by a successful integration. -/
theorem lifecycle_monotone_witness :
    statusRank Status.active ≤ statusRank Status.merged :=
  lifecycle_monotone.1 Status.active Status.merged
    (Or.inr (Or.inr (Or.inl ⟨true, rfl⟩)))

/-! ### Claim C4 -/

/-- C4 counterexample: the derived branch name and worktree path depend
only on the slug and the millisecond reading of `Date.now()`, so two
spawns with the same slug at the same clock reading derive the same
(not distinct) names, and the second workspace creation then fails
because the branch already exists. -/
theorem spawn_same_millisecond_collides :
    spawnBranchName ("fix-ui") 1730000000000 = "fix/fix-ui-1730000000000" ∧
    spawnWorktreePath ("/w") ("proj") ("fix-ui") 1730000000000 =
      "/w/proj/fix-ui-1730000000000" ∧
    spawnAttempt ("fix-ui") 1730000000000 ["fix/fix-ui-1730000000000"] = none := by
  refine ⟨by decide, by decide, by decide⟩

/-- C4 (amended): tasks spawned with the same slug in the same project
derive pairwise distinct branch names and worktree paths whenever their
`Date.now()` millisecond readings differ; at the same clock reading the
derived names coincide and the later `git worktree add -b` fails, so no
task row is recorded for the second spawn. -/
theorem spawn_names_distinct (base proj slug : String) (t1 t2 : Nat) (h : t1 ≠ t2) :
    spawnBranchName slug t1 ≠ spawnBranchName slug t2 ∧
    spawnWorktreePath base proj slug t1 ≠ spawnWorktreePath base proj slug t2 := by
  constructor
  · intro he
    apply h
    apply natRepr_injective
    have hd := congrArg String.data he
    simp only [spawnBranchName, String.data_append, List.append_assoc,
      List.append_cancel_left_eq] at hd
    exact String.ext hd
  · intro he
    apply h
    apply natRepr_injective
    have hd := congrArg String.data he
    simp only [spawnWorktreePath, String.data_append, List.append_assoc,
      List.append_cancel_left_eq] at hd
    exact String.ext hd

/-- Witness for C4 at two distinct millisecond readings. -/
theorem spawn_names_distinct_witness :
    spawnBranchName ("fix-ui") 1 ≠ spawnBranchName ("fix-ui") 2 ∧
    spawnWorktreePath ("/w") ("proj") ("fix-ui") 1 ≠
      spawnWorktreePath ("/w") ("proj") ("fix-ui") 2 :=
  spawn_names_distinct ("/w") ("proj") ("fix-ui") 1 2 (by decide)

/-! ### Claim C3 -/

theorem checkLoop_spec (a : Bool) (l : List CheckRow) :
    checkLoop a l =
      ((l.filter (fun r => isComplete r)).length,
       (l.filter (fun r =>
         isComplete r && (a && (mergeTask r.task r.st r.oracle).ok))).length,
       l.map (fun r => if isComplete r && a
         then { r with st := (mergeTask r.task r.st r.oracle).st } else r)) := by
  induction l with
  | nil => rfl
  | cons r rest ih =>
    by_cases hc : isComplete r
    · cases a with
      | false => simp [checkLoop, hc, ih]
      | true =>
        by_cases hm : (mergeTask r.task r.st r.oracle).ok = true
        · simp [checkLoop, hc, hm, ih]
        · simp [checkLoop, hc, hm, ih]
    · simp [checkLoop, hc, ih]

/-- C3 counterexample: with auto-merge disabled, a complete active task
is counted in `completed` but its stored status is left `active`; the
check operation does not mark it `completed` as the claim states (it
only prints a manual-merge hint). -/
theorem check_no_autoMerge_leaves_active :
    (checkProjectTasks false [c3Row]).1 = (1, 1, 0) ∧
    ((checkProjectTasks false [c3Row]).2.map (fun r => r.st.status)) =
      [Status.active] ∧
    c3Row.st.status = Status.active := by
  refine ⟨by decide, by decide, rfl⟩

/-- C3 (amended): check enumerates the rows with stored status `active`;
every enumerated task whose completion marker is present is counted in
`completed`; when auto-merge is enabled, integrate (`mergeTask`) is
invoked on it, the row ends in the state integrate leaves it (normally
`merged` on success and unchanged on failure, but on the failure path
where only the final working-directory restore fails the row is already
`merged` although integrate returns failure), and the merged count is
incremented exactly when integrate returns success; when auto-merge is
disabled the row is only reported with a manual-merge hint and its
stored status stays `active` (it is not marked `completed`); the
returned counts are the number of enumerated tasks, the number found
complete, and the number of integrate calls that returned success. -/
theorem checkProjectTasks_spec (autoMerge : Bool) (rows : List CheckRow) :
    (checkProjectTasks autoMerge rows).1 =
      ((rows.filter (fun r => r.st.status == Status.active)).length,
       ((rows.filter (fun r => r.st.status == Status.active)).filter
         (fun r => isComplete r)).length,
       ((rows.filter (fun r => r.st.status == Status.active)).filter
         (fun r =>
           isComplete r && (autoMerge && (mergeTask r.task r.st r.oracle).ok))).length) ∧
    (checkProjectTasks autoMerge rows).2 =
      (rows.filter (fun r => r.st.status == Status.active)).map
        (fun r => if isComplete r && autoMerge
          then { r with st := (mergeTask r.task r.st r.oracle).st } else r) := by
  constructor <;> simp [checkProjectTasks, checkLoop_spec]

/-! ### Claim C10 -/

/-- C10 counterexample: when `mergeTask` is entered from inside the task
worktree and every step succeeds, the worktree (the original working
directory) is removed before the final `process.chdir(originalCwd)`, so
that chdir throws, the catch-all's retry also fails, and the operation
returns `false` with the working directory left at the project path and
the task already recorded as `merged`. -/
theorem mergeTask_cwd_not_restored :
    (mergeTask exTask c10State fullOracle).ok = false ∧
    (mergeTask exTask c10State fullOracle).st.status = Status.merged ∧
    (mergeTask exTask c10State fullOracle).st.cwd ≠ c10State.cwd := by
  refine ⟨by decide, by decide, by decide⟩

/-- C10 (amended): on every return path `mergeTask` attempts to restore
the working directory that was current when it was entered, and the
restore succeeds whenever that directory is not the task worktree (the
only directory the operation can remove); in particular the working
directory is restored on success, on each early-failure return and on
the catch-all path. -/
theorem mergeTask_restores_cwd (t : TaskRow) (s : MergeState) (o : MergeOracle)
    (hc : s.cwd ≠ t.worktreePath) :
    (mergeTask t s o).st.cwd = s.cwd := by
  obtain ⟨co, ftip, fe, ro, rt, wo, fo, wro⟩ := o
  obtain ⟨cwd, st0, bt, tt, wtEx, dirty, wtF, locF, binds⟩ := s
  simp only at hc
  cases wtEx <;> cases dirty <;> cases co <;> cases fe <;> cases ro <;>
    cases fo <;> cases wro <;> simp [mergeTask, hc, apply_ite]

/-- Witness for C10 at a concrete run entered from outside the worktree. -/
theorem mergeTask_restores_cwd_witness :
    (mergeTask exTask c1State fullOracle).st.cwd = c1State.cwd :=
  mergeTask_restores_cwd exTask c1State fullOracle (by decide)

/-! ### Claim C1 -/

/-- C1 counterexample: a dirty worktree hitting a rebase conflict after a
successful fetch.  `mergeTask` returns `false`, but the task branch has
gained the auto-commit (its tip changed), the local base-branch
reference was updated from the remote (its tip changed), and the
worktree lost its root `TASK.md` — the branch, base branch and workspace
are not unchanged as the claim states. -/
theorem mergeTask_failure_mutates_state :
    (mergeTask exTask c1State conflictOracle).ok = false ∧
    (mergeTask exTask c1State conflictOracle).st.taskTip ≠ c1State.taskTip ∧
    (mergeTask exTask c1State conflictOracle).st.baseTip ≠ c1State.baseTip ∧
    c1State.wtFiles ("TASK.md") = some "task instructions" ∧
    (mergeTask exTask c1State conflictOracle).st.wtFiles ("TASK.md") = none := by
  refine ⟨by decide, by decide, by decide, by decide, by decide⟩

/-- C1 (amended): when `mergeTask` returns failure the task's stored
status is still `active` and the entry working directory is restored,
provided the operation was entered with status `active` from outside the
task worktree; the embedding routes every internal failure through the
catch-all handler, so no exception escapes the boundary.  The task
branch, the workspace contents and the local base-branch reference are
not guaranteed unchanged (see the counterexample), and when only the
teardown or the final chdir fails the base branch already points at the
rebased task branch. -/
theorem mergeTask_failure_keeps_active (t : TaskRow) (s : MergeState) (o : MergeOracle)
    (hs : s.status = Status.active) (hc : s.cwd ≠ t.worktreePath) :
    (mergeTask t s o).ok = false →
      (mergeTask t s o).st.status = Status.active ∧
      (mergeTask t s o).st.cwd = s.cwd := by
  intro hok
  obtain ⟨co, ftip, fe, ro, rt, wo, fo, wro⟩ := o
  obtain ⟨cwd, st0, bt, tt, wtEx, dirty, wtF, locF, binds⟩ := s
  simp only at hs hc
  subst hs
  cases wtEx <;> cases dirty <;> cases co <;> cases fe <;> cases ro <;>
    cases fo <;> cases wro <;> simp_all [mergeTask, hc, apply_ite]

/-- Witness for C1 at the concrete rebase-conflict run. -/
theorem mergeTask_failure_keeps_active_witness :
    (mergeTask exTask c1State conflictOracle).st.status = Status.active ∧
    (mergeTask exTask c1State conflictOracle).st.cwd = c1State.cwd :=
  mergeTask_failure_keeps_active exTask c1State conflictOracle rfl (by decide) (by decide)

/-! ### Claim C7 -/

/-- C7: when the rebase step fails, `mergeTask` returns failure, the
task's stored status remains `active`, the base branch holds no commit
from the task (its tip is either unchanged or exactly the tip fetched
from the remote), and the printed error lines name the workspace path
(the `cd` resolution step) and the exact retry command
(`co merge <short id>`). -/
theorem mergeTask_rebase_conflict (t : TaskRow) (s : MergeState) (o : MergeOracle)
    (hw : s.worktreeExists = true)
    (hcommit : s.dirty = true → o.commitOk = true)
    (hr : o.rebaseOk = false) (hs : s.status = Status.active) :
    (mergeTask t s o).ok = false ∧
    (mergeTask t s o).st.status = Status.active ∧
    ((mergeTask t s o).st.baseTip = s.baseTip ∨
      o.fetched = some ((mergeTask t s o).st.baseTip)) ∧
    ("   1. cd " ++ t.worktreePath) ∈ (mergeTask t s o).msgs ∧
    ("   5. Try merging again with: co merge " ++ strTake t.id 8) ∈
      (mergeTask t s o).msgs := by
  obtain ⟨co, ftip, fe, ro, rt, wo, fo, wro⟩ := o
  obtain ⟨cwd, st0, bt, tt, wtEx, dirty, wtF, locF, binds⟩ := s
  simp only at hw hcommit hr hs
  subst hw hr hs
  cases dirty <;> cases co <;> cases fe <;>
    simp_all [mergeTask, rebaseFailMsgs]

/-- Witness for C7 at the concrete rebase-conflict run. -/
theorem mergeTask_rebase_conflict_witness :
    (mergeTask exTask c1State conflictOracle).ok = false ∧
    (mergeTask exTask c1State conflictOracle).st.status = Status.active ∧
    ((mergeTask exTask c1State conflictOracle).st.baseTip = c1State.baseTip ∨
      conflictOracle.fetched = some ((mergeTask exTask c1State conflictOracle).st.baseTip)) ∧
    ("   1. cd " ++ exTask.worktreePath) ∈ (mergeTask exTask c1State conflictOracle).msgs ∧
    ("   5. Try merging again with: co merge " ++ strTake exTask.id 8) ∈
      (mergeTask exTask c1State conflictOracle).msgs :=
  mergeTask_rebase_conflict exTask c1State conflictOracle rfl (fun _ => rfl) rfl rfl

/-! ### Claim C6 -/

theorem mergeTask_ff_raw (t : TaskRow) (s : MergeState) (o : MergeOracle)
    (hw : s.worktreeExists = true)
    (hcommit : s.dirty = true → o.commitOk = true)
    (hr : o.rebaseOk = true) (hff : o.ffOk = true) :
    (mergeTask t s o).usedLocation = some (mergeLocation t s.bindings o) ∧
    (mergeTask t s o).usedReset =
      some (showCurrent s.bindings (mergeLocation t s.bindings o) == some t.baseBranch) ∧
    (mergeTask t s o).st.baseTip = o.rebasedTip ∧
    (mergeTask t s o).st.taskTip = o.rebasedTip := by
  obtain ⟨co, ftip, fe, ro, rt, wo, fo, wro⟩ := o
  obtain ⟨cwd, st0, bt, tt, wtEx, dirty, wtF, locF, binds⟩ := s
  simp only at hw hcommit hr hff
  subst hw hr hff
  cases dirty <;> cases co <;> cases fe <;> cases wro <;>
    simp_all [mergeTask, apply_ite]

/-- C6: after a successful rebase the orchestrator locates the checkout
of the base branch by scanning the project's working-directory bindings
(the first binding with the base branch checked out, defaulting to the
main project path), performs a hard reset there when the base branch is
checked out at that location and a plain `branch -f` reference update
otherwise, and in either case the base branch ends up pointing exactly
at the rebased task branch tip (the model creates no merge commit: the
fast-forward only moves the reference). -/
theorem mergeTask_fastforward_location (t : TaskRow) (s : MergeState) (o : MergeOracle)
    (hw : s.worktreeExists = true)
    (hcommit : s.dirty = true → o.commitOk = true)
    (hr : o.rebaseOk = true) (hl : o.worktreeListOk = true) (hff : o.ffOk = true) :
    (mergeTask t s o).usedLocation = some (expectedBaseLocation t s.bindings) ∧
    (mergeTask t s o).usedReset =
      some (showCurrent s.bindings (expectedBaseLocation t s.bindings) == some t.baseBranch) ∧
    (mergeTask t s o).st.baseTip = o.rebasedTip ∧
    (mergeTask t s o).st.taskTip = o.rebasedTip := by
  have h := mergeTask_ff_raw t s o hw hcommit hr hff
  rwa [mergeLocation_eq_expected t s.bindings o hl] at h

/-- Witness for C6: the base branch is checked out at the secondary
location `/second`, which is found by the scan and used for the hard
reset. -/
theorem mergeTask_fastforward_location_witness :
    (mergeTask exTask c6State fullOracle).usedLocation =
      some (expectedBaseLocation exTask c6State.bindings) ∧
    (mergeTask exTask c6State fullOracle).usedReset =
      some (showCurrent c6State.bindings (expectedBaseLocation exTask c6State.bindings) ==
        some exTask.baseBranch) ∧
    (mergeTask exTask c6State fullOracle).st.baseTip = fullOracle.rebasedTip ∧
    (mergeTask exTask c6State fullOracle).st.taskTip = fullOracle.rebasedTip :=
  mergeTask_fastforward_location exTask c6State fullOracle rfl (fun _ => rfl) rfl rfl rfl

/-! ### Claim C2 -/

/-- C2 counterexample: the quarantine backup is taken from the task
worktree (lines 760-775) and restored at the base-branch location
(lines 930-955), so after a successful integration the base-branch
location's `settings.local.json` holds the task workspace's content,
which was not previously present there — the opposite of the claim. -/
theorem mergeTask_quarantine_counterexample :
    (mergeTask exTask c2State fullOracle).ok = true ∧
    c2State.locFiles ("/proj", "settings.local.json") = some "base-settings" ∧
    c2State.wtFiles ("settings.local.json") = some "task-settings" ∧
    (mergeTask exTask c2State fullOracle).st.locFiles ("/proj", "settings.local.json") =
      some "task-settings" := by
  refine ⟨by decide, by decide, by decide, by decide⟩

/-- C2 (amended): after a successful integration each configured
local-only file at the base-branch location equals the task workspace's
copy of that file at the start of the integration — it is overwritten
with the task's content, or deleted there when the task workspace did
not have it.  The base-branch location reflects the task workspace's
state for these files, not the base branch's own history. -/
theorem mergeTask_quarantine_overwrites (t : TaskRow) (s : MergeState) (o : MergeOracle)
    (f : String) (hf : f ∈ filesToPreserve)
    (hok : (mergeTask t s o).ok = true) :
    (mergeTask t s o).st.locFiles (mergeLocation t s.bindings o, f) = s.wtFiles f := by
  obtain ⟨co, ftip, fe, ro, rt, wo, fo, wro⟩ := o
  obtain ⟨cwd, st0, bt, tt, wtEx, dirty, wtF, locF, binds⟩ := s
  simp only [filesToPreserve, List.mem_cons, List.not_mem_nil, or_false] at hf
  cases wtEx <;> cases dirty <;> cases co <;> cases fe <;> cases ro <;>
    cases fo <;> cases wro <;>
      simp_all [mergeTask, filesToPreserve, restoreBackups, apply_ite] <;>
        rcases hf with rfl | rfl | rfl <;>
          simp [setFile, Prod.mk.injEq]

/-- Witness for C2 at the concrete successful run of the
counterexample's state. -/
theorem mergeTask_quarantine_overwrites_witness :
    (mergeTask exTask c2State fullOracle).st.locFiles
        (mergeLocation exTask c2State.bindings fullOracle, "settings.local.json") =
      c2State.wtFiles ("settings.local.json") :=
  mergeTask_quarantine_overwrites exTask c2State fullOracle
    ("settings.local.json") (by decide) (by decide)
